import Mathlib

/-!
Verification of the conversational goal-planning assistant (the "Leo"
repository).  The development shallowly embeds the conversation state
machines of `src/agents/chat_flow_agent.py` (`ChatFlowAgent`) and
`src/agents/chat_agent.py` (`ChatAgent`), together with the plan-synthesis
gateway of `src/agents/goal_flow.py` (`GoalFlow`), and proves or refutes
the specification's claims about them.

Python strings are modelled as `List Char`; `str.lower()` as a character
map; the substring test `kw in text` as list-infix; dictionaries with a
fixed key set as records with `Option` fields (a `none` field models an
absent key).  External collaborators (the OpenAI chat call and the
pseudo-random choices) are injected as explicit parameters, so every
theorem quantifies over their behaviour.
-/

namespace Leo

/-- Python strings are modelled as lists of characters. -/
abbrev Str := List Char

/-- Model of Python `str.lower()`. -/
def toLowerStr (s : Str) : Str := s.map Char.toLower

/-- Model of the Python substring test `needle in hay`. -/
def containsStr (hay needle : Str) : Bool := decide (needle <:+: hay)

/-- Model of Python `any(kw in hay for kw in kws)`. -/
def containsAnyKw (hay : Str) (kws : List Str) : Bool :=
  kws.any (fun kw => containsStr hay kw)

/-- Characters removed by Python `str.strip()`. -/
def isPySpace (c : Char) : Bool :=
  c == ' ' || c == '\t' || c == '\n' || c == '\r' || c == '\x0b' || c == '\x0c'

/-- Model of Python `str.strip()`. -/
def pyStrip (s : Str) : Str :=
  ((s.dropWhile isPySpace).reverse.dropWhile isPySpace).reverse

/-! The intent keyword tables.  `chat_agent.py` (lines 41-46) and
`chat_flow_agent.py` (lines 56-61) define byte-for-byte identical
`intent_keywords` dictionaries, so they are embedded once. -/

/-- Keyword set `intent_keywords["goal_planning"]`. -/
def goalPlanningKws : List Str :=
  [("goal".toList), ("achieve".toList), ("plan".toList), ("create".toList),
   ("work on".toList), ("learn".toList), ("improve".toList), ("get better".toList),
   ("start".toList), ("master".toList), ("study".toList), ("develop".toList),
   ("build".toList), ("lose weight".toList), ("gain muscle".toList),
   ("learn python".toList), ("learn machine learning".toList),
   ("want to".toList), ("need to".toList)]

/-- Keyword set `intent_keywords["scheduling"]`. -/
def schedulingKws : List Str :=
  [("schedule".toList), ("time".toList), ("organize".toList),
   ("plan my day".toList), ("routine".toList), ("calendar".toList)]

/-- Keyword set `intent_keywords["productivity_coaching"]`. -/
def productivityKws : List Str :=
  [("productive".toList), ("efficient".toList), ("focus".toList),
   ("motivation".toList), ("habits".toList), ("routine".toList),
   ("work better".toList), ("productivity tips".toList),
   ("study habits".toList), ("work habits".toList)]

/-- Keyword set `intent_keywords["casual_chat"]`. -/
def casualChatKws : List Str :=
  [("chat".toList), ("talk".toList), ("just".toList), ("hello".toList),
   ("hi".toList), ("how are you".toList), ("what's up".toList),
   ("tell me about".toList), ("what are".toList), ("how do i".toList),
   ("can you help".toList), ("help me".toList), ("assist".toList)]

/-- Affirmative tokens checked at the confirmation steps
(`chat_agent.py` line 286, `chat_flow_agent.py` line 253). -/
def affirmativeKws : List Str :=
  [("yes".toList), ("sure".toList), ("okay".toList), ("create".toList),
   ("generate".toList), ("plan".toList), ("ready".toList), ("go".toList)]

/-- Timeline extraction, the if/elif chain duplicated at
`chat_agent.py` lines 262-272 and `chat_flow_agent.py` lines 228-238.
The input is the raw user message; the chain inspects its lowercase form. -/
def extractTimeline (msg : Str) : Str :=
  let ul := toLowerStr msg
  if containsAnyKw ul [("7 day".toList), ("7 days".toList), ("week".toList), ("1 week".toList)] then
    ("7_days".toList)
  else if containsAnyKw ul [("14 day".toList), ("14 days".toList), ("2 week".toList), ("2 weeks".toList)] then
    ("14_days".toList)
  else if containsAnyKw ul [("1 month".toList), ("month".toList), ("30 day".toList), ("30 days".toList)] then
    ("1_month".toList)
  else if containsAnyKw ul [("6 month".toList), ("6 months".toList), ("half year".toList)] then
    ("6_months".toList)
  else
    ("1_month".toList)

inductive Role
  | user
  | assistant
deriving DecidableEq, Repr

namespace ChatFlow

/-- `ChatFlowState` (chat_flow_agent.py lines 16-27). -/
inductive State
  | greeting
  | awaitingIntent
  | awaitingGoal
  | awaitingImportance
  | awaitingTimeline
  | awaitingPreferences
  | awaitingConfirmation
  | readyToGeneratePlan
  | casualChat
  | productivityCoaching
  | scheduling
deriving DecidableEq, Repr

/-- The `user_data` dictionary (chat_flow_agent.py lines 47-53); all keys
are always present, starting as empty strings / `False`. -/
structure UserData where
  goal : Str
  importance : Str
  timeline : Str
  preferences : Str
  confirmed : Bool
deriving DecidableEq, Repr

def initUserData : UserData := ⟨[], [], [], [], false⟩

/-- Symbolic reply descriptor.  `template k` stands for
`_get_random_response(k)` (a uniformly random draw from the fixed pool of
2-3 paraphrases for kind `k`); `ai tag` stands for
`_generate_ai_response(user_message, tag)` (the free-form generation
collaborator invoked with the persona tag); `text s` is a literal reply;
`planSummary` is the `_generate_plan_summary()` string built from the four
collected fields.  No claim about `ChatFlowAgent` inspects the concrete
reply text, so the symbolic form keeps the state machine deterministic. -/
inductive Resp
  | template (kind : String)
  | ai (ctxTag : String)
  | text (s : String)
  | planSummary (goal importance timeline preferences : Str)
deriving DecidableEq, Repr

/-- A chat-history entry (role plus content; the wall-clock timestamp the
source also stores is outside the model). -/
inductive Entry
  | userMsg (s : Str)
  | botReply (r : Resp)
deriving DecidableEq, Repr

/-- The mutable attributes of a `ChatFlowAgent` instance. -/
structure Agent where
  currentState : State
  userData : UserData
  chatHistory : List Entry
deriving DecidableEq, Repr

def initialAgent : Agent := ⟨State.greeting, initUserData, []⟩

/-- `_handle_greeting` (lines 166-187). -/
def handleGreeting (a : Agent) (msg : Str) : Agent × Resp :=
  let ul := toLowerStr msg
  if containsAnyKw ul goalPlanningKws then
    ({ a with currentState := State.awaitingGoal,
              userData := { a.userData with goal := msg } },
     Resp.template "goal_importance")
  else if containsAnyKw ul productivityKws then
    ({ a with currentState := State.productivityCoaching },
     Resp.ai "productivity_coaching")
  else if containsAnyKw ul casualChatKws then
    ({ a with currentState := State.casualChat }, Resp.ai "casual_chat")
  else
    ({ a with currentState := State.awaitingIntent }, Resp.template "asking_intent")

/-- `_handle_intent_detection` (lines 189-210). -/
def handleIntentDetection (a : Agent) (msg : Str) : Agent × Resp :=
  let ul := toLowerStr msg
  if containsAnyKw ul goalPlanningKws then
    ({ a with currentState := State.awaitingGoal,
              userData := { a.userData with goal := msg } },
     Resp.template "goal_importance")
  else if containsAnyKw ul productivityKws then
    ({ a with currentState := State.productivityCoaching },
     Resp.ai "productivity_coaching")
  else if containsAnyKw ul schedulingKws then
    ({ a with currentState := State.scheduling }, Resp.ai "scheduling")
  else
    ({ a with currentState := State.casualChat }, Resp.ai "casual_chat")

/-- `_handle_goal_input` (lines 212-216). -/
def handleGoalInput (a : Agent) (msg : Str) : Agent × Resp :=
  ({ a with currentState := State.awaitingImportance,
            userData := { a.userData with goal := msg } },
   Resp.template "goal_importance")

/-- `_handle_importance_input` (lines 218-222). -/
def handleImportanceInput (a : Agent) (msg : Str) : Agent × Resp :=
  ({ a with currentState := State.awaitingTimeline,
            userData := { a.userData with importance := msg } },
   Resp.template "goal_timeline")

/-- `_handle_timeline_input` (lines 224-241). -/
def handleTimelineInput (a : Agent) (msg : Str) : Agent × Resp :=
  ({ a with currentState := State.awaitingPreferences,
            userData := { a.userData with timeline := extractTimeline msg } },
   Resp.template "goal_preferences")

/-- `_handle_preferences_input` (lines 243-247). -/
def handlePreferencesInput (a : Agent) (msg : Str) : Agent × Resp :=
  ({ a with currentState := State.awaitingConfirmation,
            userData := { a.userData with preferences := msg } },
   Resp.template "goal_confirmation")

/-- `_handle_confirmation_input` (lines 249-260). -/
def handleConfirmationInput (a : Agent) (msg : Str) : Agent × Resp :=
  let ul := toLowerStr msg
  if containsAnyKw ul affirmativeKws then
    ({ a with currentState := State.readyToGeneratePlan,
              userData := { a.userData with confirmed := true } },
     Resp.planSummary a.userData.goal a.userData.importance
       a.userData.timeline a.userData.preferences)
  else
    ({ a with currentState := State.awaitingGoal },
     Resp.text "No problem! Let me ask you a few more questions to better understand your goal.")

/-- `_generate_response` (lines 123-164).  The trailing Python `else`
branch (default to casual chat) is unreachable: the match on the state
enum is exhaustive. -/
def generateResponse (a : Agent) (msg : Str) : Agent × Resp :=
  match a.currentState with
  | State.greeting => handleGreeting a msg
  | State.awaitingIntent => handleIntentDetection a msg
  | State.awaitingGoal => handleGoalInput a msg
  | State.awaitingImportance => handleImportanceInput a msg
  | State.awaitingTimeline => handleTimelineInput a msg
  | State.awaitingPreferences => handlePreferencesInput a msg
  | State.awaitingConfirmation => handleConfirmationInput a msg
  | State.readyToGeneratePlan =>
      (a, Resp.text "Perfect! I'm ready to generate your personalized plan. The system will now create a detailed plan based on your inputs.")
  | State.casualChat => (a, Resp.ai "casual_chat")
  | State.productivityCoaching => (a, Resp.ai "productivity_coaching")
  | State.scheduling => (a, Resp.ai "scheduling")

/-- `handle_message` (lines 102-121): append the user turn, generate the
reply from the current state, append the assistant turn. -/
def handleMessage (a : Agent) (msg : Str) : Agent × Resp :=
  let a1 : Agent := { a with chatHistory := a.chatHistory ++ [Entry.userMsg msg] }
  let step := generateResponse a1 msg
  ({ step.1 with chatHistory := step.1.chatHistory ++ [Entry.botReply step.2] }, step.2)

/-- Feed a list of user messages to the agent, in order. -/
def run (a : Agent) (msgs : List Str) : Agent :=
  msgs.foldl (fun ag m => (handleMessage ag m).1) a

end ChatFlow

namespace ChatA

/-!
Embedding of `src/agents/chat_agent.py` (`ChatAgent`).  Replies are
modelled as real strings because the fallback-string claims inspect them.
Two collaborator effects are injected as parameters: `choice` models
`random.choice` over a template pool, and `gen` models the outcome of the
OpenAI chat-completion call of `_generate_ai_response` (`Except.error`
models the call raising; `Except.ok r` models it returning reply `r`).
`hasKey` models whether `OPENAI_API_KEY` is configured (when it is not,
the source never attempts the call and uses the same fallback strings).
-/

/-- `ConversationState` (chat_agent.py lines 12-19). -/
inductive State
  | greeting
  | askingIntent
  | goalPlanning
  | scheduling
  | productivityCoaching
  | casualChat
  | planGeneration
deriving DecidableEq, Repr

/-- The `goal_context` dictionary (keys `goal`, `importance`, `timeline`,
`habits`); a `none` field models an absent key. -/
structure GoalContext where
  goal : Option Str
  importance : Option Str
  timeline : Option Str
  habits : Option Str
deriving DecidableEq, Repr

def emptyContext : GoalContext := ⟨none, none, none, none⟩

structure Entry where
  role : Role
  content : Str
deriving DecidableEq, Repr

/-- The mutable attributes of a `ChatAgent` instance. -/
structure Agent where
  conversationState : State
  chatHistory : List Entry
  goalContext : GoalContext
  currentQuestionIndex : Nat
deriving DecidableEq, Repr

def initialAgent : Agent := ⟨State.greeting, [], emptyContext, 0⟩

/-- The `response_templates` pools (lines 59-95); the decorative emoji
bytes in the source strings are elided.  The catch-all branch models
`self.response_templates.get(kind, ["I'm here to help!"])`. -/
def respTemplates (kind : String) : List Str :=
  match kind with
  | "greeting" =>
      [("Hey there! What's on your mind today?".toList),
       ("Hi! Ready to crush some goals or just chat?".toList),
       ("Hello! What would you like to work on?".toList)]
  | "asking_intent" =>
      [("Are you looking to achieve a goal or just chat for now?".toList),
       ("Want to set a goal or just explore some productivity tips?".toList),
       ("Are you here to plan something or just have a conversation?".toList)]
  | "goal_question" =>
      [("What's your main goal right now?".toList),
       ("What are you looking to achieve?".toList),
       ("What's the big thing you want to work on?".toList)]
  | "goal_importance" =>
      [("Love that. Why is this important to you right now?".toList),
       ("Cool goal. What's driving you to work on this?".toList),
       ("Nice. What makes this meaningful to you?".toList)]
  | "goal_timeline" =>
      [("Totally get that. Want a 7-day, 14-day, 1-month, or 6-month plan for it?".toList),
       ("Got it. What's your timeline - quick sprint or longer journey?".toList),
       ("Cool. How long do you want to work on this - weeks or months?".toList)]
  | "goal_habits" =>
      [("Anything I should know - like your schedule or what you enjoy?".toList),
       ("Tell me about your current routine or what works for you.".toList),
       ("What's your typical day like? Any preferences I should know?".toList)]
  | "goal_confirmation" =>
      [("Awesome! Ready to build your plan?".toList),
       ("Perfect! Want me to create a personalized plan for this?".toList),
       ("Great! Should I put together your plan now?".toList)]
  | _ => [("I'm here to help!".toList)]

/-- `_get_random_response` (lines 364-368): a `random.choice` from the
pool, modelled by the injected `choice` function. -/
def getRandomResponse (choice : List Str → Str) (kind : String) : Str :=
  choice (respTemplates kind)

/-- The context-tagged fallback replies of `_generate_ai_response`.  The
source spells this block twice, verbatim: once for the missing-API-key
path (lines 418-430) and once in the `except` handler (lines 468-480). -/
def fallbackResponse (ctxTag : String) (msg : Str) : Str :=
  if ctxTag == "casual_chat" then
    if (pyStrip msg).length ≤ 3 then
      ("I'm here to help! What would you like to work on today? You can tell me about a goal, ask for productivity tips, or just chat.".toList)
    else
      ("That's interesting! Tell me more about what you'd like to work on or how I can help you.".toList)
  else if ctxTag == "productivity_coaching" then
    ("I'd be happy to help with productivity! What specific area would you like to improve - time management, focus, habits, or something else?".toList)
  else if ctxTag == "scheduling" then
    ("I can help you with scheduling and time management! What kind of schedule are you looking to create?".toList)
  else
    ("I'm here to help you achieve your goals! What would you like to work on?".toList)

/-- `_generate_ai_response` (lines 415-480): without an API key, answer
from the fallback table; otherwise try the collaborator and fall back to
the same table if it raises. -/
def generateAiResponse (hasKey : Bool) (gen : Except Unit Str) (msg : Str)
    (ctxTag : String) : Str :=
  if hasKey then
    match gen with
    | Except.ok r => r
    | Except.error _ => fallbackResponse ctxTag msg
  else
    fallbackResponse ctxTag msg

/-- Greeting words checked at line 151 (and, with `hello` listed first but
the same set, at line 325). -/
def greetingWords : List Str :=
  [("hi".toList), ("hello".toList), ("hey".toList), ("good morning".toList),
   ("good afternoon".toList), ("good evening".toList)]

/-- Help-request keywords checked at line 161. -/
def helpRequestKws : List Str :=
  [("can you help".toList), ("help me".toList), ("assist".toList), ("support".toList)]

/-- Explicit goal-creation phrases (lines 189 and 311). -/
def goalCreationPhrases : List Str :=
  [("create a goal".toList), ("make a goal".toList), ("set a goal".toList),
   ("create goal".toList), ("make goal".toList), ("set goal".toList),
   ("goal for me".toList), ("create for me".toList), ("with this agent".toList)]

/-- DSA hints for the goal pre-fill heuristic (lines 192 and 314). -/
def dsaKws : List Str :=
  [("dsa".toList), ("data structures".toList), ("algorithms".toList)]

/-- The goal text pre-filled by the goal-creation shortcut. -/
def prefillGoal (ul : Str) : Str :=
  if containsAnyKw ul dsaKws then ("Learn Data Structures and Algorithms".toList)
  else ("your goal".toList)

/-- Stop/exit tokens of `_handle_goal_planning` (line 235); the whole
lowercased message must equal one of them. -/
def stopWords : List Str :=
  [("stop".toList), ("wait".toList), ("exit".toList), ("cancel".toList),
   ("no".toList), ("nevermind".toList)]

/-- Unclear/repeated tokens of `_handle_goal_planning` (line 240). -/
def unclearWords : List Str :=
  [("same".toList), ("repeating".toList), ("repeat".toList), ("again".toList)]

/-- Filler tokens of `_handle_intent_detection` (line 221). -/
def fillerTokens : List Str :=
  [("wtf".toList), ("what".toList), ("h".toList), ("l".toList), ("o".toList),
   ("wait".toList), ("stop".toList), ("no".toList), ("yes".toList)]

/-- Timeline hint words of the index-2 special case (line 257). -/
def timelineHintWords : List Str :=
  [("7".toList), ("14".toList), ("1 month".toList), ("6 month".toList),
   ("week".toList), ("month".toList), ("day".toList)]

/-- Question words of `_handle_casual_chat` (line 321). -/
def questionWords : List Str :=
  [("what".toList), ("who".toList), ("how".toList), ("why".toList)]

/-- Affirmative tokens of `_handle_plan_generation` (line 333). -/
def planGenAffirmKws : List Str :=
  [("yes".toList), ("sure".toList), ("okay".toList), ("create".toList),
   ("generate".toList)]

/-- `timeline_text` lookup of `_generate_plan_summary` (lines 348-353),
a dictionary `get` with default `1 month`. -/
def timelineText (t : Str) : Str :=
  if t == ("7_days".toList) then ("7 days".toList)
  else if t == ("14_days".toList) then ("14 days".toList)
  else if t == ("1_month".toList) then ("1 month".toList)
  else if t == ("6_months".toList) then ("6 months".toList)
  else ("1 month".toList)

/-- `_generate_plan_summary` (lines 340-362); emoji bytes elided. -/
def planSummary (ctx : GoalContext) : Str :=
  ("Perfect! Here's what I understand:\n\n**Goal:** ".toList)
    ++ ctx.goal.getD ("your goal".toList)
    ++ ("\n**Why it matters:** ".toList)
    ++ ctx.importance.getD ("personal growth".toList)
    ++ ("\n**Timeline:** ".toList)
    ++ timelineText (ctx.timeline.getD ("1_month".toList))
    ++ ("\n**Your style:** ".toList)
    ++ ctx.habits.getD ("flexible schedule".toList)
    ++ ("\n\nReady to build your personalized plan?".toList)

/-- `_get_clarification_response` (lines 370-383). -/
def clarificationResponse (a : Agent) : Str :=
  let goal := a.goalContext.goal.getD ("your goal".toList)
  match a.currentQuestionIndex with
  | 0 => ("What's your main goal right now? Just tell me what you want to achieve.".toList)
  | 1 => ("Why is '".toList) ++ goal
          ++ ("' important to you right now? What's driving you?".toList)
  | 2 => ("Got it. What's your timeline - 7 days, 14 days, 1 month, or 6 months?".toList)
  | 3 => ("Anything I should know about your schedule or preferences?".toList)
  | _ => ("Ready to build your plan for '".toList) ++ goal ++ ("'? Just say yes!".toList)

/-- `_handle_greeting` (lines 145-177). -/
def handleGreeting (choice : List Str → Str) (hasKey : Bool) (gen : Except Unit Str)
    (a : Agent) (msg : Str) : Agent × Str :=
  let ul := toLowerStr msg
  if containsAnyKw ul greetingWords then
    ({ a with conversationState := State.askingIntent },
     getRandomResponse choice "asking_intent")
  else if containsAnyKw ul productivityKws then
    ({ a with conversationState := State.productivityCoaching },
     generateAiResponse hasKey gen msg "productivity_coaching")
  else if containsAnyKw ul helpRequestKws then
    ({ a with conversationState := State.casualChat },
     generateAiResponse hasKey gen msg "casual_chat")
  else if containsAnyKw ul casualChatKws then
    ({ a with conversationState := State.casualChat },
     generateAiResponse hasKey gen msg "casual_chat")
  else if 5 < (pyStrip msg).length ∧ containsAnyKw ul goalPlanningKws then
    ({ a with conversationState := State.goalPlanning,
              goalContext := { a.goalContext with goal := some msg } },
     getRandomResponse choice "goal_timeline")
  else
    ({ a with conversationState := State.askingIntent },
     getRandomResponse choice "asking_intent")

/-- `_handle_intent_detection` (lines 179-228). -/
def handleIntentDetection (choice : List Str → Str) (hasKey : Bool)
    (gen : Except Unit Str) (a : Agent) (msg : Str) : Agent × Str :=
  let ul := toLowerStr msg
  if containsAnyKw ul casualChatKws then
    ({ a with conversationState := State.casualChat },
     generateAiResponse hasKey gen msg "casual_chat")
  else if containsAnyKw ul goalCreationPhrases then
    ({ a with conversationState := State.goalPlanning,
              goalContext := { a.goalContext with goal := some (prefillGoal ul) } },
     getRandomResponse choice "goal_timeline")
  else if containsAnyKw ul goalPlanningKws then
    ({ a with conversationState := State.goalPlanning,
              goalContext := { a.goalContext with goal := some msg } },
     getRandomResponse choice "goal_timeline")
  else if containsAnyKw ul schedulingKws then
    ({ a with conversationState := State.scheduling },
     generateAiResponse hasKey gen msg "scheduling")
  else if containsAnyKw ul productivityKws then
    ({ a with conversationState := State.productivityCoaching },
     generateAiResponse hasKey gen msg "productivity_coaching")
  else if 5 < (pyStrip msg).length then
    ({ a with conversationState := State.goalPlanning,
              goalContext := { a.goalContext with goal := some msg } },
     getRandomResponse choice "goal_timeline")
  else if (pyStrip msg).length ≤ 3 ∨ fillerTokens.contains ul then
    ({ a with conversationState := State.casualChat },
     generateAiResponse hasKey gen msg "casual_chat")
  else
    ({ a with conversationState := State.casualChat },
     generateAiResponse hasKey gen msg "casual_chat")

/-- `_handle_goal_planning` (lines 230-292).  With a slot index outside
0-4 the Python function falls off the end returning `None`; that branch
is unreachable (the index is only ever assigned 0-4) and is modelled as
an empty reply. -/
def handleGoalPlanning (choice : List Str → Str) (a : Agent) (msg : Str) :
    Agent × Str :=
  let ul := toLowerStr msg
  if stopWords.contains ul then
    ({ a with conversationState := State.casualChat },
     ("No problem! Let's chat about something else. What's on your mind?".toList))
  else if (pyStrip msg).length ≤ 3 ∨ unclearWords.contains ul then
    (a, clarificationResponse a)
  else
    match a.currentQuestionIndex with
    | 0 =>
        ({ a with goalContext := { a.goalContext with goal := some msg },
                  currentQuestionIndex := 1 },
         getRandomResponse choice "goal_importance")
    | 1 =>
        ({ a with goalContext := { a.goalContext with importance := some msg },
                  currentQuestionIndex := 2 },
         getRandomResponse choice "goal_timeline")
    | 2 =>
        if 10 < (pyStrip msg).length ∧ ¬ containsAnyKw ul timelineHintWords then
          ({ a with goalContext := { a.goalContext with importance := some msg } },
           getRandomResponse choice "goal_timeline")
        else
          ({ a with goalContext := { a.goalContext with timeline := some (extractTimeline msg) },
                    currentQuestionIndex := 3 },
           getRandomResponse choice "goal_habits")
    | 3 =>
        ({ a with goalContext := { a.goalContext with habits := some msg },
                  currentQuestionIndex := 4 },
         getRandomResponse choice "goal_confirmation")
    | 4 =>
        if containsAnyKw ul affirmativeKws then
          ({ a with conversationState := State.planGeneration }, planSummary a.goalContext)
        else
          ({ a with currentQuestionIndex := 0 },
           ("No problem! Let me ask you a few more questions to better understand your goal.".toList))
    | _ => (a, [])

/-- `_handle_casual_chat` (lines 302-329). -/
def handleCasualChat (choice : List Str → Str) (hasKey : Bool)
    (gen : Except Unit Str) (a : Agent) (msg : Str) : Agent × Str :=
  let ul := toLowerStr msg
  if (pyStrip msg).length ≤ 3 then
    (a, ("I'm here to help you achieve your goals! What would you like to work on? You can tell me about a goal you want to achieve, ask for help with productivity, or just chat.".toList))
  else if containsAnyKw ul goalCreationPhrases then
    ({ a with conversationState := State.goalPlanning,
              goalContext := { a.goalContext with goal := some (prefillGoal ul) } },
     getRandomResponse choice "goal_timeline")
  else if containsAnyKw ul questionWords then
    (a, ("I'm your AI productivity assistant! I can help you create personalized plans for your goals, improve your productivity, or just have a friendly chat. What would you like to work on?".toList))
  else if containsAnyKw ul greetingWords then
    (a, ("Hello! I'm here to help you achieve your goals and improve your productivity. What would you like to work on today?".toList))
  else
    (a, generateAiResponse hasKey gen msg "casual_chat")

/-- `_handle_plan_generation` (lines 331-338). -/
def handlePlanGeneration (a : Agent) (msg : Str) : Agent × Str :=
  let ul := toLowerStr msg
  if containsAnyKw ul planGenAffirmKws then
    (a, ("Perfect! I'm generating your personalized plan now. This will include specific steps, timeline, and resources tailored to your goal.".toList))
  else
    ({ a with conversationState := State.goalPlanning, currentQuestionIndex := 0 },
     ("No problem! Let me ask you a few more questions to better understand your goal.".toList))

/-- `_generate_response` (lines 118-143).  The trailing literal return is
unreachable: the match on the state enum is exhaustive. -/
def generateResponse (choice : List Str → Str) (hasKey : Bool)
    (gen : Except Unit Str) (a : Agent) (msg : Str) : Agent × Str :=
  match a.conversationState with
  | State.greeting => handleGreeting choice hasKey gen a msg
  | State.askingIntent => handleIntentDetection choice hasKey gen a msg
  | State.goalPlanning => handleGoalPlanning choice a msg
  | State.scheduling => (a, generateAiResponse hasKey gen msg "scheduling")
  | State.productivityCoaching =>
      (a, generateAiResponse hasKey gen msg "productivity_coaching")
  | State.casualChat => handleCasualChat choice hasKey gen a msg
  | State.planGeneration => handlePlanGeneration a msg

/-- `handle_message` (lines 97-116): append the user turn, generate the
reply from the current state, append the assistant turn. -/
def handleMessage (choice : List Str → Str) (hasKey : Bool)
    (gen : Except Unit Str) (a : Agent) (msg : Str) : Agent × Str :=
  let a1 : Agent := { a with chatHistory := a.chatHistory ++ [⟨Role.user, msg⟩] }
  let step := generateResponse choice hasKey gen a1 msg
  ({ step.1 with chatHistory := step.1.chatHistory ++ [⟨Role.assistant, step.2⟩] },
   step.2)

/-- Feed a list of user messages to the agent, in order. -/
def run (choice : List Str → Str) (hasKey : Bool) (gen : Except Unit Str)
    (a : Agent) (msgs : List Str) : Agent :=
  msgs.foldl (fun ag m => (handleMessage choice hasKey gen ag m).1) a

end ChatA

namespace GoalFlow

/-!
Embedding of the plan-synthesis gateway `src/agents/goal_flow.py`, with
its two enrichment passes `src/agents/scheduler_agent.py` and
`src/agents/research_agent.py`.  Plans are the dictionaries the source
builds: a task always carries `day` and `task`; the keys added later by
the enrichment passes are `Option` fields (a `none` models an absent
key).  The pseudo-random draws (`random.choice`, and the
`random.sample`/`randint` pair selecting 1-3 resources) are injected as
the `pick` and `sample` parameters.
-/

structure Resource where
  title : Str
  url : Str
deriving DecidableEq, Repr

structure Task where
  day : Str
  task : Str
  timeBlock : Option Str
  estimatedDuration : Option Str
  priority : Option Str
  energyLevel : Option Str
  resources : Option (List Resource)
  resourceCategory : Option Str
  helpfulTip : Option Str
deriving DecidableEq, Repr

/-- A task dictionary as first built, before enrichment. -/
def bareTask (day taskText : Str) : Task :=
  ⟨day, taskText, none, none, none, none, none, none, none⟩

structure Week where
  week : Nat
  tasks : List Task
deriving DecidableEq, Repr

/-- The `metadata` dictionary; different code paths store different key
sets, so every field is optional.  The `created_at` wall-clock timestamp
of the source is outside the model. -/
structure Metadata where
  goal : Option Str
  timeline : Option Str
  seriousness : Option Str
  reminders : Option Str
  aiModel : Option Str
  category : Option Str
  error : Option Str
  note : Option Str
deriving DecidableEq, Repr

structure Plan where
  weeks : List Week
  metadata : Option Metadata
deriving DecidableEq, Repr

/-- The goal context consumed by `generate_plan_from_context`; each field
models one key read with `goal_context.get(key, default)`. -/
structure Ctx where
  goal : Option Str
  timeline : Option Str
  seriousness : Option Str
  reminders : Option Str
deriving DecidableEq, Repr

/-! Scheduler pass (`scheduler_agent.py`). -/

/-- `_get_task_type` (lines 21-36). -/
def getTaskType (taskText : Str) : Str :=
  let tl := toLowerStr taskText
  if containsAnyKw tl [("research".toList), ("find".toList), ("search".toList), ("look up".toList)] then
    ("research".toList)
  else if containsAnyKw tl [("write".toList), ("draft".toList), ("create".toList), ("prepare".toList)] then
    ("writing".toList)
  else if containsAnyKw tl [("exercise".toList), ("workout".toList), ("run".toList), ("gym".toList), ("fitness".toList)] then
    ("exercise".toList)
  else if containsAnyKw tl [("learn".toList), ("study".toList), ("read".toList), ("watch".toList), ("course".toList)] then
    ("learning".toList)
  else if containsAnyKw tl [("plan".toList), ("organize".toList), ("schedule".toList), ("prepare".toList)] then
    ("planning".toList)
  else
    ("default".toList)

/-- The `task_durations` table (lines 12-19), as the lookup
`self.task_durations.get(task_type, self.task_durations["default"])`. -/
def taskDurations (ty : Str) : List Str :=
  if ty == ("research".toList) then
    [("09:00-10:00".toList), ("10:00-11:00".toList), ("14:00-15:00".toList)]
  else if ty == ("writing".toList) then
    [("10:00-11:00".toList), ("15:00-16:00".toList), ("20:00-21:00".toList)]
  else if ty == ("exercise".toList) then
    [("06:00-07:00".toList), ("17:00-18:00".toList), ("19:00-20:00".toList)]
  else if ty == ("learning".toList) then
    [("09:00-10:00".toList), ("14:00-15:00".toList), ("16:00-17:00".toList)]
  else if ty == ("planning".toList) then
    [("08:00-09:00".toList), ("13:00-14:00".toList), ("18:00-19:00".toList)]
  else
    [("10:00-11:00".toList), ("14:00-15:00".toList), ("16:00-17:00".toList)]

def prioLevels : List Str := [("High".toList), ("Medium".toList), ("Low".toList)]

/-- The per-task body of `SchedulerAgent.schedule` (lines 38-53). -/
def scheduleTask (pick : List Str → Str) (t : Task) : Task :=
  let ty := getTaskType t.task
  { t with timeBlock := some (pick (taskDurations ty)),
           estimatedDuration := some ("1 hour".toList),
           priority := some (pick prioLevels),
           energyLevel := some (pick prioLevels) }

/-- `SchedulerAgent.schedule`: mutate every task of every week in place. -/
def schedule (pick : List Str → Str) (p : Plan) : Plan :=
  { p with weeks := p.weeks.map (fun w => { w with tasks := w.tasks.map (scheduleTask pick) }) }

/-! Research pass (`research_agent.py`). -/

def careerResources : List Resource :=
  [⟨("LinkedIn Profile Optimization Guide".toList), ("https://www.linkedin.com/learning/".toList)⟩,
   ⟨("Resume Writing Best Practices".toList), ("https://www.indeed.com/career-advice/resumes-cover-letters".toList)⟩,
   ⟨("Interview Preparation Tips".toList), ("https://www.glassdoor.com/blog/interview-questions/".toList)⟩,
   ⟨("Networking Strategies".toList), ("https://www.forbes.com/sites/networking/".toList)⟩,
   ⟨("Job Search Techniques".toList), ("https://www.monster.com/career-advice/".toList)⟩]

def healthResources : List Resource :=
  [⟨("Fitness Fundamentals".toList), ("https://www.acefitness.org/education-and-resources/".toList)⟩,
   ⟨("Nutrition Basics".toList), ("https://www.nutrition.gov/".toList)⟩,
   ⟨("Workout Routines".toList), ("https://www.bodybuilding.com/workouts/".toList)⟩,
   ⟨("Mental Health Resources".toList), ("https://www.nami.org/help".toList)⟩,
   ⟨("Sleep Optimization".toList), ("https://www.sleepfoundation.org/".toList)⟩]

def learningResources : List Resource :=
  [⟨("Online Learning Platforms".toList), ("https://www.coursera.org/".toList)⟩,
   ⟨("Skill Development Resources".toList), ("https://www.skillshare.com/".toList)⟩,
   ⟨("Study Techniques".toList), ("https://www.khanacademy.org/".toList)⟩,
   ⟨("Programming Tutorials".toList), ("https://www.freecodecamp.org/".toList)⟩,
   ⟨("Language Learning Apps".toList), ("https://www.duolingo.com/".toList)⟩]

def personalResources : List Resource :=
  [⟨("Goal Setting Framework".toList), ("https://www.mindtools.com/pages/main/newMN_HTE.htm".toList)⟩,
   ⟨("Time Management Tips".toList), ("https://www.mindtools.com/pages/main/newMN_HTE.htm".toList)⟩,
   ⟨("Productivity Hacks".toList), ("https://www.lifehack.org/".toList)⟩,
   ⟨("Mindfulness Practices".toList), ("https://www.headspace.com/".toList)⟩,
   ⟨("Personal Development Books".toList), ("https://www.goodreads.com/shelf/show/personal-development".toList)⟩]

def financialResources : List Resource :=
  [⟨("Budgeting Basics".toList), ("https://www.mint.com/".toList)⟩,
   ⟨("Investment Guide".toList), ("https://www.investopedia.com/".toList)⟩,
   ⟨("Saving Strategies".toList), ("https://www.nerdwallet.com/".toList)⟩,
   ⟨("Financial Planning".toList), ("https://www.financialplanningassociation.org/".toList)⟩,
   ⟨("Debt Management".toList), ("https://www.debt.org/".toList)⟩]

def relationshipsResources : List Resource :=
  [⟨("Communication Skills".toList), ("https://www.psychologytoday.com/us/topics/communication".toList)⟩,
   ⟨("Conflict Resolution".toList), ("https://www.helpguide.org/articles/relationships-communication/".toList)⟩,
   ⟨("Building Trust".toList), ("https://www.mindtools.com/pages/article/building-trust.htm".toList)⟩,
   ⟨("Active Listening".toList), ("https://www.skillsyouneed.com/ips/active-listening.html".toList)⟩,
   ⟨("Relationship Advice".toList), ("https://www.gottman.com/".toList)⟩]

/-- The keys of the `resource_templates` dictionary. -/
def resourceCategoryNames : List Str :=
  [("career".toList), ("health".toList), ("learning".toList),
   ("personal".toList), ("financial".toList), ("relationships".toList)]

/-- The lookup `self.resource_templates.get(category,
self.resource_templates["personal"])`. -/
def resourcesFor (cat : Str) : List Resource :=
  if cat == ("career".toList) then careerResources
  else if cat == ("health".toList) then healthResources
  else if cat == ("learning".toList) then learningResources
  else if cat == ("financial".toList) then financialResources
  else if cat == ("relationships".toList) then relationshipsResources
  else personalResources

/-- `_get_task_category` (lines 50-70); `goal_category` truthiness is
non-emptiness. -/
def getTaskCategory (taskText goalCategory : Str) : Str :=
  let tl := toLowerStr taskText
  if goalCategory ≠ [] ∧ resourceCategoryNames.contains (toLowerStr goalCategory) then
    toLowerStr goalCategory
  else if containsAnyKw tl [("job".toList), ("career".toList), ("resume".toList), ("interview".toList), ("internship".toList)] then
    ("career".toList)
  else if containsAnyKw tl [("exercise".toList), ("workout".toList), ("fitness".toList), ("health".toList), ("diet".toList)] then
    ("health".toList)
  else if containsAnyKw tl [("learn".toList), ("study".toList), ("course".toList), ("skill".toList), ("programming".toList)] then
    ("learning".toList)
  else if containsAnyKw tl [("budget".toList), ("money".toList), ("invest".toList), ("save".toList), ("financial".toList)] then
    ("financial".toList)
  else if containsAnyKw tl [("relationship".toList), ("communication".toList), ("friend".toList), ("family".toList)] then
    ("relationships".toList)
  else
    ("personal".toList)

/-- `_get_helpful_tip` (lines 93-103); emoji bytes elided. -/
def tipFor (cat : Str) : Str :=
  if cat == ("career".toList) then
    ("Pro tip: Network with professionals in your field on LinkedIn".toList)
  else if cat == ("health".toList) then
    ("Pro tip: Start with small, sustainable changes for lasting results".toList)
  else if cat == ("learning".toList) then
    ("Pro tip: Use the Pomodoro technique for focused study sessions".toList)
  else if cat == ("personal".toList) then
    ("Pro tip: Break big goals into smaller, manageable tasks".toList)
  else if cat == ("financial".toList) then
    ("Pro tip: Track your expenses to identify spending patterns".toList)
  else if cat == ("relationships".toList) then
    ("Pro tip: Practice active listening to improve communication".toList)
  else
    ("Pro tip: Consistency is key to achieving your goals".toList)

/-- The per-task body of `ResearchAgent.enrich` (lines 72-91); `sample`
models `random.sample(available, min(random.randint(1, 3),
len(available)))`. -/
def enrichTask (sample : List Resource → List Resource) (goalCategory : Str)
    (t : Task) : Task :=
  let category := getTaskCategory t.task goalCategory
  { t with resources := some (sample (resourcesFor category)),
           resourceCategory := some category,
           helpfulTip := some (tipFor category) }

/-- `ResearchAgent.enrich`: the goal category comes from
`plan.get('metadata', {}).get('category', 'Personal')`. -/
def enrich (sample : List Resource → List Resource) (p : Plan) : Plan :=
  let goalCategory := (p.metadata.bind Metadata.category).getD ("Personal".toList)
  { p with weeks := p.weeks.map (fun w => { w with tasks := w.tasks.map (enrichTask sample goalCategory) }) }

/-! The gateway itself (`goal_flow.py`). -/

def weekDays : List Str :=
  [("Monday".toList), ("Tuesday".toList), ("Wednesday".toList), ("Thursday".toList),
   ("Friday".toList), ("Saturday".toList), ("Sunday".toList)]

/-- `_create_fallback_plan` (lines 128-159): 2/4/6 generic weeks of 7
generic daily tasks derived from the goal text. -/
def createFallbackPlan (ctx : Ctx) : List Week :=
  let goal := ctx.goal.getD ("your goal".toList)
  let timeline := ctx.timeline.getD ("medium_term".toList)
  let numWeeks : Nat :=
    if timeline == ("short_term".toList) then 2
    else if timeline == ("long_term".toList) then 6
    else 4
  (List.range numWeeks).map (fun i =>
    let weekNum := i + 1
    { week := weekNum,
      tasks := weekDays.map (fun day =>
        let taskText :=
          if weekNum == 1 && day == ("Monday".toList) then
            ("Start working on: ".toList) ++ goal
          else if weekNum == numWeeks && day == ("Sunday".toList) then
            ("Review progress and plan next steps for: ".toList) ++ goal
          else
            ("Continue working on: ".toList) ++ goal
        bareTask day taskText) })

/-- `_create_error_plan` (lines 161-184): one week of five generic
weekday tasks, with the error message recorded in the metadata. -/
def createErrorPlan (ctx : Ctx) (errorMessage : Str) : Plan :=
  let goal := ctx.goal.getD ("your goal".toList)
  { weeks :=
      [{ week := 1,
         tasks :=
           [bareTask ("Monday".toList) (("Start working on: ".toList) ++ goal),
            bareTask ("Tuesday".toList) (("Continue working on: ".toList) ++ goal),
            bareTask ("Wednesday".toList) (("Make progress on: ".toList) ++ goal),
            bareTask ("Thursday".toList) (("Keep working on: ".toList) ++ goal),
            bareTask ("Friday".toList) (("Review progress on: ".toList) ++ goal)] }],
    metadata := some
      { goal := some goal, timeline := none, seriousness := none,
        reminders := none, aiModel := none, category := none,
        error := some errorMessage,
        note := some ("This is a simplified plan due to an error in generation.".toList) } }

/-- The outcome of the planner collaborator call inside
`generate_plan_from_context`: `Except.error e` models the OpenAI call
raising an exception with message `e`; `Except.ok none` models the call
returning content that `json.loads` rejects (`JSONDecodeError`);
`Except.ok (some ws)` models content parsed as a plan with weeks `ws`.
The prompt built by `_create_enhanced_prompt` only feeds this call, so it
lives inside the abstraction. -/
abbrev PlannerOutcome := Except Str (Option (List Week))

/-- `generate_plan_from_context` (lines 19-72).  The surrounding
`try/except` is the match on the planner outcome: any exception
short-circuits to the error plan, otherwise the (parsed or fallback)
weeks run through the scheduler and research passes and the metadata is
attached last. -/
def generatePlanFromContext (pick : List Str → Str)
    (sample : List Resource → List Resource) (planner : PlannerOutcome)
    (ctx : Ctx) (aiModel : Str) : Plan :=
  match planner with
  | Except.error e => createErrorPlan ctx e
  | Except.ok parsed =>
      let base : Plan :=
        { weeks := (match parsed with
                    | some ws => ws
                    | none => createFallbackPlan ctx),
          metadata := none }
      let scheduled := schedule pick base
      let enriched := enrich sample scheduled
      let finalMeta : Metadata :=
        { goal := some (ctx.goal.getD []),
          timeline := some (ctx.timeline.getD ("medium_term".toList)),
          seriousness := some (ctx.seriousness.getD ("medium".toList)),
          reminders := some (ctx.reminders.getD ("weekly".toList)),
          aiModel := some aiModel, category := none,
          error := none, note := none }
      { enriched with metadata := some finalMeta }

end GoalFlow

/-! Auxiliary definitions used by the theorems. -/

namespace ChatFlow

/-- The four non-empty-field conditions of the `GoalContext` invariant. -/
def goodData (d : UserData) : Prop :=
  d.goal ≠ [] ∧ d.importance ≠ [] ∧ d.timeline ≠ [] ∧ d.preferences ≠ []

/-- Inductive invariant of the `ChatFlowAgent` state machine under
non-empty user messages: each slot-filling state can only be entered
after the earlier slots were written, and a confirmed context has all
four slots written. -/
def inv (a : Agent) : Prop :=
  (a.currentState = State.awaitingImportance → a.userData.goal ≠ []) ∧
  (a.currentState = State.awaitingTimeline →
    a.userData.goal ≠ [] ∧ a.userData.importance ≠ []) ∧
  (a.currentState = State.awaitingPreferences →
    a.userData.goal ≠ [] ∧ a.userData.importance ≠ [] ∧ a.userData.timeline ≠ []) ∧
  (a.currentState = State.awaitingConfirmation → goodData a.userData) ∧
  (a.userData.confirmed = true → goodData a.userData)

end ChatFlow

/-- The scripted dialogue of the round-trip scenario. -/
def demoScript : List Str :=
  [("hi".toList), ("I want to learn Python".toList), ("for my career".toList),
   ("1 month".toList), ("I study at night".toList), ("yes".toList)]

/-- A six-message session built only from empty messages after an
opening goal keyword; it drives `ChatFlowAgent` to a confirmed context
with empty fields. -/
def emptyFieldScript : List Str :=
  [("learn".toList), [], [], [], [], ("yes".toList)]

/-- A scripted session of non-empty messages that reaches the confirmed
state (used to witness the invariant theorem). -/
def goodScript : List Str :=
  [("i want to learn python".toList), ("learn python".toList),
   ("for my career".toList), ("1 month".toList), ("i study at night".toList),
   ("yes".toList)]

/-- A concrete template chooser (first paraphrase of the pool). -/
def pick0 : List Str → Str := fun l => l.headD []

/-- A concrete resource sampler (first resource of the pool). -/
def sample0 : List GoalFlow.Resource → List GoalFlow.Resource := fun l => l.take 1

/-- A `ChatAgent` mid goal collection: goal and importance committed,
slot index at the timeline question. -/
def stopAgent : ChatA.Agent :=
  ⟨ChatA.State.goalPlanning, [],
   ⟨some ("learn python".toList), some ("for my career".toList), none, none⟩, 2⟩

/-! Helper lemmas. -/

theorem containsStr_eq_false_of_lt {hay kw : Str} (h : hay.length < kw.length) :
    containsStr hay kw = false := by
  have hni : ¬ kw <:+: hay := fun hinf => absurd hinf.length_le (by omega)
  simpa [containsStr] using hni

theorem containsAnyKw_eq_false {hay : Str} {kws : List Str}
    (h : ∀ kw ∈ kws, hay.length < kw.length) : containsAnyKw hay kws = false := by
  simp only [containsAnyKw, List.any_eq_false]
  intro kw hkw
  simp [containsStr_eq_false_of_lt (h kw hkw)]

theorem toLowerStr_length (s : Str) : (toLowerStr s).length = s.length :=
  List.length_map s Char.toLower

theorem goalPlanningKws_min_length : ∀ kw ∈ goalPlanningKws, 4 ≤ kw.length := by
  decide

theorem productivityKws_min_length : ∀ kw ∈ productivityKws, 4 ≤ kw.length := by
  decide

theorem schedulingKws_min_length : ∀ kw ∈ schedulingKws, 4 ≤ kw.length := by
  decide

/-- Every branch of the timeline extraction chain yields one of the four
bucket strings. -/
theorem extractTimeline_cases (s : Str) :
    extractTimeline s = ("7_days".toList) ∨ extractTimeline s = ("14_days".toList) ∨
    extractTimeline s = ("1_month".toList) ∨ extractTimeline s = ("6_months".toList) := by
  unfold extractTimeline
  dsimp only
  split_ifs <;> simp

theorem extractTimeline_ne_nil (s : Str) : extractTimeline s ≠ [] := by
  rcases extractTimeline_cases s with h | h | h | h <;> simp [h]

/-! Theorems for the claims. -/

/-- C3: the timeline extraction chain as implemented contradicts the
claimed phrase-set mapping on its own trigger lists: `"2 weeks"` falls
into the 7-day branch (the `"week"` check precedes the `"2 week(s)"`
check) and `"6 months"` falls into the 1-month branch (the `"month"`
check precedes the `"6 month(s)"` check), so the `"2 week(s)"` and
`"6 month(s)"` entries of the 14-day and 6-month trigger sets are dead
for exactly the inputs they name.  The unshadowed phrases behave as
claimed. -/
theorem extract_timeline_shadowed_branches :
    extractTimeline ("2 weeks".toList) = ("7_days".toList) ∧
    extractTimeline ("6 months".toList) = ("1_month".toList) ∧
    extractTimeline ("14 day".toList) = ("14_days".toList) ∧
    extractTimeline ("half year".toList) = ("6_months".toList) ∧
    extractTimeline ("30 days".toList) = ("1_month".toList) := by
  decide

/-- C9: timeline extraction is total: every input yields one of the four
buckets, `"let's do this over 14 days"` yields `14_days`, and
`"sometime"` yields `1_month`. -/
theorem extract_timeline_total :
    (∀ s : Str,
      extractTimeline s = ("7_days".toList) ∨ extractTimeline s = ("14_days".toList) ∨
      extractTimeline s = ("1_month".toList) ∨ extractTimeline s = ("6_months".toList)) ∧
    extractTimeline ("let's do this over 14 days".toList) = ("14_days".toList) ∧
    extractTimeline ("sometime".toList) = ("1_month".toList) :=
  ⟨extractTimeline_cases, by decide, by decide⟩

/-- C4: in state `AwaitingIntent`, the message
`"Can you help me get organized this week?"` matches no goal-planning or
coaching keyword, matches the scheduling keyword `organize`, and so
enters the `Scheduling` state with the scheduling-tagged free-form
reply. -/
theorem organized_this_week_routes_to_scheduling :
    (ChatFlow.handleMessage ⟨ChatFlow.State.awaitingIntent, ChatFlow.initUserData, []⟩
        ("Can you help me get organized this week?".toList)).1.currentState =
      ChatFlow.State.scheduling ∧
    (ChatFlow.handleMessage ⟨ChatFlow.State.awaitingIntent, ChatFlow.initUserData, []⟩
        ("Can you help me get organized this week?".toList)).2 =
      ChatFlow.Resp.ai "scheduling" := by
  decide

/-- C1: the scripted round-trip dialogue fails on the code.  In
`ChatFlowAgent`, `"hi"` from a fresh session already matches the
casual-chat keyword `hi` in `_handle_greeting`, so the first turn answers
with the casual-chat free-form reply instead of the ask-intent prompt and
the whole script stays in `CasualChat`, ending unconfirmed with every
field empty.  In the `ChatAgent` variant, `"hi"` does reach the
ask-intent prompt, but the goal turn answers with the timeline prompt
while the slot index still expects the goal, so `"for my career"`
overwrites the goal, the timeline is never stored, and the script ends
stuck at slot index 2 in `GOAL_PLANNING` instead of reaching the
ready-to-generate state. -/
theorem scripted_session_stalls_in_casual_chat :
    ((ChatFlow.handleMessage ChatFlow.initialAgent ("hi".toList)).2 =
       ChatFlow.Resp.ai "casual_chat" ∧
     (ChatFlow.run ChatFlow.initialAgent demoScript).currentState =
       ChatFlow.State.casualChat ∧
     (ChatFlow.run ChatFlow.initialAgent demoScript).userData.confirmed = false ∧
     (ChatFlow.run ChatFlow.initialAgent demoScript).userData = ChatFlow.initUserData) ∧
    (∀ (choice : List Str → Str) (hasKey : Bool) (gen : Except Unit Str),
      (ChatA.run choice hasKey gen ChatA.initialAgent demoScript).conversationState =
        ChatA.State.goalPlanning ∧
      (ChatA.run choice hasKey gen ChatA.initialAgent demoScript).currentQuestionIndex = 2 ∧
      (ChatA.run choice hasKey gen ChatA.initialAgent demoScript).goalContext.timeline =
        none ∧
      (ChatA.run choice hasKey gen ChatA.initialAgent demoScript).goalContext.goal =
        some ("for my career".toList)) := by
  exact ⟨by decide, fun choice hasKey gen => ⟨rfl, rfl, rfl, rfl⟩⟩

/-- C2 (counterexample): handling the six-message sequence `"learn"`,
`""`, `""`, `""`, `""`, `"yes"` from a fresh session reaches a state
with `confirmed == true` while the goal, importance and preferences
fields are all empty: the invariant as claimed fails for message
sequences containing empty messages. -/
theorem confirmed_with_empty_fields_cex :
    (ChatFlow.run ChatFlow.initialAgent emptyFieldScript).userData.confirmed = true ∧
    (ChatFlow.run ChatFlow.initialAgent emptyFieldScript).userData.goal = [] ∧
    (ChatFlow.run ChatFlow.initialAgent emptyFieldScript).userData.importance = [] ∧
    (ChatFlow.run ChatFlow.initialAgent emptyFieldScript).userData.preferences = [] := by
  decide

/-- C5: any message of length at most 3 characters handled in state
`AwaitingIntent` lands in `CasualChat`: every keyword in the
goal-planning, productivity and scheduling tables has at least 4
characters, so no keyword can be a substring of the lowered message, and
the handler falls through to its casual-chat default. -/
theorem short_input_goes_to_casual_chat (a : ChatFlow.Agent) (msg : Str)
    (hstate : a.currentState = ChatFlow.State.awaitingIntent)
    (hlen : msg.length ≤ 3) :
    (ChatFlow.handleMessage a msg).1.currentState = ChatFlow.State.casualChat := by
  have hlow : (toLowerStr msg).length ≤ 3 := by rw [toLowerStr_length]; exact hlen
  have hgl : containsAnyKw (toLowerStr msg) goalPlanningKws = false :=
    containsAnyKw_eq_false (fun kw hkw => by
      have := goalPlanningKws_min_length kw hkw; omega)
  have hpr : containsAnyKw (toLowerStr msg) productivityKws = false :=
    containsAnyKw_eq_false (fun kw hkw => by
      have := productivityKws_min_length kw hkw; omega)
  have hsc : containsAnyKw (toLowerStr msg) schedulingKws = false :=
    containsAnyKw_eq_false (fun kw hkw => by
      have := schedulingKws_min_length kw hkw; omega)
  simp [ChatFlow.handleMessage, ChatFlow.generateResponse, hstate,
    ChatFlow.handleIntentDetection, hgl, hpr, hsc]

/-- C5 witness: the concrete two-character message `"hi"` (itself a
casual-chat keyword) handled in `AwaitingIntent` lands in `CasualChat`. -/
theorem short_input_goes_to_casual_chat_witness :
    (ChatFlow.handleMessage ⟨ChatFlow.State.awaitingIntent, ChatFlow.initUserData, []⟩
        ("hi".toList)).1.currentState = ChatFlow.State.casualChat :=
  short_input_goes_to_casual_chat _ _ rfl (by decide)

/-- One handled message preserves the slot invariant, provided the
message is non-empty. -/
theorem inv_step (a : ChatFlow.Agent) (msg : Str) (hmsg : msg ≠ [])
    (h : ChatFlow.inv a) : ChatFlow.inv (ChatFlow.handleMessage a msg).1 := by
  obtain ⟨h1, h2, h3, h4, h5⟩ := h
  have hex := extractTimeline_ne_nil msg
  unfold ChatFlow.goodData at h4 h5
  unfold ChatFlow.inv ChatFlow.goodData
  unfold ChatFlow.handleMessage ChatFlow.generateResponse ChatFlow.handleGreeting
    ChatFlow.handleIntentDetection ChatFlow.handleGoalInput ChatFlow.handleImportanceInput
    ChatFlow.handleTimelineInput ChatFlow.handlePreferencesInput
    ChatFlow.handleConfirmationInput
  cases hs : a.currentState <;> simp_all <;> split_ifs <;> simp_all

/-- The slot invariant holds after any run of non-empty messages. -/
theorem inv_run (a : ChatFlow.Agent) (msgs : List Str)
    (hmsgs : ∀ m ∈ msgs, m ≠ []) (ha : ChatFlow.inv a) :
    ChatFlow.inv (ChatFlow.run a msgs) := by
  induction msgs generalizing a with
  | nil => exact ha
  | cons m ms ih =>
      have hstep := inv_step a m (hmsgs m (List.mem_cons_self m ms)) ha
      have : ChatFlow.run a (m :: ms) =
          ChatFlow.run (ChatFlow.handleMessage a m).1 ms := by
        simp [ChatFlow.run]
      rw [this]
      exact ih _ (fun x hx => hmsgs x (List.mem_cons_of_mem m hx)) hstep

/-- C2 (amended): in every session state reachable from a fresh session
by handling a sequence of NON-EMPTY user messages, `confirmed == true`
implies that goal, importance, timeline and preferences are all
non-empty.  (The unamended claim fails when the host hands the state
machine an empty message, which is stored verbatim in the slot being
filled.) -/
theorem confirmed_implies_fields_nonempty (msgs : List Str)
    (hmsgs : ∀ m ∈ msgs, m ≠ [])
    (hc : (ChatFlow.run ChatFlow.initialAgent msgs).userData.confirmed = true) :
    (ChatFlow.run ChatFlow.initialAgent msgs).userData.goal ≠ [] ∧
    (ChatFlow.run ChatFlow.initialAgent msgs).userData.importance ≠ [] ∧
    (ChatFlow.run ChatFlow.initialAgent msgs).userData.timeline ≠ [] ∧
    (ChatFlow.run ChatFlow.initialAgent msgs).userData.preferences ≠ [] := by
  have hinit : ChatFlow.inv ChatFlow.initialAgent := by
    unfold ChatFlow.inv ChatFlow.goodData ChatFlow.initialAgent ChatFlow.initUserData
    simp
  exact (inv_run ChatFlow.initialAgent msgs hmsgs hinit).2.2.2.2 hc

/-- C2 witness: a concrete all-non-empty six-message session reaches
`confirmed == true`, and the theorem yields all four fields non-empty
there. -/
theorem confirmed_implies_fields_nonempty_witness :
    (ChatFlow.run ChatFlow.initialAgent goodScript).userData.goal ≠ [] ∧
    (ChatFlow.run ChatFlow.initialAgent goodScript).userData.importance ≠ [] ∧
    (ChatFlow.run ChatFlow.initialAgent goodScript).userData.timeline ≠ [] ∧
    (ChatFlow.run ChatFlow.initialAgent goodScript).userData.preferences ≠ [] :=
  confirmed_implies_fields_nonempty goodScript (by decide) (by decide)

/-- C6: in state `GOAL_PLANNING`, handling `"stop"` at any slot index and
with any collected context moves the session to `CASUAL_CHAT` and leaves
the whole goal context (and the slot index) untouched: the stop check
precedes every slot-writing branch of `_handle_goal_planning`. -/
theorem stop_aborts_flow_preserving_context (choice : List Str → Str)
    (hasKey : Bool) (gen : Except Unit Str) (a : ChatA.Agent)
    (h : a.conversationState = ChatA.State.goalPlanning) :
    (ChatA.handleMessage choice hasKey gen a ("stop".toList)).1.conversationState =
      ChatA.State.casualChat ∧
    (ChatA.handleMessage choice hasKey gen a ("stop".toList)).1.goalContext =
      a.goalContext ∧
    (ChatA.handleMessage choice hasKey gen a ("stop".toList)).1.currentQuestionIndex =
      a.currentQuestionIndex := by
  simp +decide [ChatA.handleMessage, ChatA.generateResponse, h,
    ChatA.handleGoalPlanning]

/-- C6 witness: with goal and importance already committed and the slot
index at the timeline question, `"stop"` lands in `CASUAL_CHAT` with
both stored fields (and the index) exactly as they were. -/
theorem stop_aborts_flow_preserving_context_witness :
    (ChatA.handleMessage pick0 true (Except.ok ("ok".toList)) stopAgent
        ("stop".toList)).1.conversationState = ChatA.State.casualChat ∧
    (ChatA.handleMessage pick0 true (Except.ok ("ok".toList)) stopAgent
        ("stop".toList)).1.goalContext = stopAgent.goalContext ∧
    (ChatA.handleMessage pick0 true (Except.ok ("ok".toList)) stopAgent
        ("stop".toList)).1.currentQuestionIndex = stopAgent.currentQuestionIndex :=
  stop_aborts_flow_preserving_context pick0 true (Except.ok ("ok".toList)) stopAgent rfl

set_option maxHeartbeats 2000000 in
/-- C7: a turn handled with a failing generation collaborator reaches
exactly the conversation state, goal context and slot index that the same
turn with a successful collaborator reaches, and its reply either never
consulted the collaborator (so equals the successful-run reply) or is the
fixed fallback string determined by the context tag of the call. -/
theorem collaborator_failure_uses_fallback (choice : List Str → Str)
    (a : ChatA.Agent) (msg s : Str) :
    ((ChatA.handleMessage choice true (Except.error ()) a msg).1.conversationState =
        (ChatA.handleMessage choice true (Except.ok s) a msg).1.conversationState ∧
      (ChatA.handleMessage choice true (Except.error ()) a msg).1.goalContext =
        (ChatA.handleMessage choice true (Except.ok s) a msg).1.goalContext ∧
      (ChatA.handleMessage choice true (Except.error ()) a msg).1.currentQuestionIndex =
        (ChatA.handleMessage choice true (Except.ok s) a msg).1.currentQuestionIndex) ∧
    ((ChatA.handleMessage choice true (Except.error ()) a msg).2 =
        (ChatA.handleMessage choice true (Except.ok s) a msg).2 ∨
      ∃ c, (c = "casual_chat" ∨ c = "productivity_coaching" ∨ c = "scheduling") ∧
        (ChatA.handleMessage choice true (Except.error ()) a msg).2 =
          ChatA.fallbackResponse c msg) := by
  obtain ⟨st, hist, ctx, qi⟩ := a
  unfold ChatA.handleMessage ChatA.generateResponse ChatA.handleGreeting
    ChatA.handleIntentDetection ChatA.handleGoalPlanning ChatA.handleCasualChat
    ChatA.handlePlanGeneration ChatA.generateAiResponse
  cases st <;> dsimp only <;> (try split_ifs) <;> (try split) <;> (try split_ifs) <;>
    first
    | exact ⟨⟨rfl, rfl, rfl⟩, Or.inl rfl⟩
    | exact ⟨⟨rfl, rfl, rfl⟩, Or.inr ⟨"casual_chat", Or.inl rfl, rfl⟩⟩
    | exact ⟨⟨rfl, rfl, rfl⟩, Or.inr ⟨"productivity_coaching", Or.inr (Or.inl rfl), rfl⟩⟩
    | exact ⟨⟨rfl, rfl, rfl⟩, Or.inr ⟨"scheduling", Or.inr (Or.inr rfl), rfl⟩⟩

/-- The response generation never touches the chat history. -/
theorem generateResponse_chatHistory (choice : List Str → Str) (hasKey : Bool)
    (gen : Except Unit Str) (a : ChatA.Agent) (msg : Str) :
    (ChatA.generateResponse choice hasKey gen a msg).1.chatHistory =
      a.chatHistory := by
  obtain ⟨st, hist, ctx, qi⟩ := a
  unfold ChatA.generateResponse ChatA.handleGreeting ChatA.handleIntentDetection
    ChatA.handleGoalPlanning ChatA.handleCasualChat ChatA.handlePlanGeneration
  cases st <;> dsimp only <;> (try split_ifs) <;> (try split) <;> (try split_ifs) <;> rfl

/-- One handled message appends the user entry and then the assistant
entry, leaving the earlier history untouched. -/
theorem handleMessage_chatHistory (choice : List Str → Str) (hasKey : Bool)
    (gen : Except Unit Str) (a : ChatA.Agent) (msg : Str) :
    (ChatA.handleMessage choice hasKey gen a msg).1.chatHistory =
      a.chatHistory ++
        [⟨Role.user, msg⟩,
         ⟨Role.assistant, (ChatA.handleMessage choice hasKey gen a msg).2⟩] := by
  unfold ChatA.handleMessage
  dsimp only
  rw [generateResponse_chatHistory]
  dsimp only
  rw [List.append_assoc]
  rfl

theorem join_replicate_pair_length (n : Nat) (x y : Role) :
    ((List.replicate n [x, y]).join).length = 2 * n := by
  induction n with
  | zero => simp
  | succ k ih => simp [List.replicate_succ, ih]; omega

/-- Roles accumulated by a run: one user/assistant pair per message. -/
theorem run_roles_aux (choice : List Str → Str) (hasKey : Bool)
    (gen : Except Unit Str) (msgs : List Str) (a : ChatA.Agent) :
    (ChatA.run choice hasKey gen a msgs).chatHistory.map ChatA.Entry.role =
      a.chatHistory.map ChatA.Entry.role ++
        (List.replicate msgs.length [Role.user, Role.assistant]).join := by
  induction msgs generalizing a with
  | nil => simp [ChatA.run]
  | cons m ms ih =>
      have hrun : ChatA.run choice hasKey gen a (m :: ms) =
          ChatA.run choice hasKey gen (ChatA.handleMessage choice hasKey gen a m).1 ms := by
        simp [ChatA.run]
      rw [hrun, ih, handleMessage_chatHistory]
      simp [List.replicate_succ]

/-- C10: every handled message appends exactly the user entry followed by
the assistant entry carrying the returned reply, never touching earlier
entries; consequently a fresh session that has handled `n` messages has
exactly `2n` history entries whose roles strictly alternate
user/assistant. -/
theorem handle_message_appends_two_entries :
    (∀ (choice : List Str → Str) (hasKey : Bool) (gen : Except Unit Str)
        (a : ChatA.Agent) (msg : Str),
      (ChatA.handleMessage choice hasKey gen a msg).1.chatHistory =
        a.chatHistory ++
          [⟨Role.user, msg⟩,
           ⟨Role.assistant, (ChatA.handleMessage choice hasKey gen a msg).2⟩]) ∧
    (∀ (choice : List Str → Str) (hasKey : Bool) (gen : Except Unit Str)
        (msgs : List Str),
      (ChatA.run choice hasKey gen ChatA.initialAgent msgs).chatHistory.length =
        2 * msgs.length ∧
      (ChatA.run choice hasKey gen ChatA.initialAgent msgs).chatHistory.map
          ChatA.Entry.role =
        (List.replicate msgs.length [Role.user, Role.assistant]).join) := by
  constructor
  · exact handleMessage_chatHistory
  · intro choice hasKey gen msgs
    have hr := run_roles_aux choice hasKey gen msgs ChatA.initialAgent
    simp only [ChatA.initialAgent, List.map_nil, List.nil_append] at hr
    refine ⟨?_, hr⟩
    have hlen := congrArg List.length hr
    rw [List.length_map] at hlen
    rw [join_replicate_pair_length] at hlen
    exact hlen

/-! Plan-synthesis gateway claims. -/

theorem schedule_weeks_length (pick : List Str → Str) (p : GoalFlow.Plan) :
    (GoalFlow.schedule pick p).weeks.length = p.weeks.length := by
  simp [GoalFlow.schedule]

theorem enrich_weeks_length (sample : List GoalFlow.Resource → List GoalFlow.Resource)
    (p : GoalFlow.Plan) : (GoalFlow.enrich sample p).weeks.length = p.weeks.length := by
  simp [GoalFlow.enrich]

theorem createFallbackPlan_length_pos (ctx : GoalFlow.Ctx) :
    0 < (GoalFlow.createFallbackPlan ctx).length := by
  unfold GoalFlow.createFallbackPlan
  dsimp only
  split_ifs <;> simp

/-- C8 (counterexample): feeding the gateway an all-empty context while
the planner collaborator raises yields the error plan, whose metadata
carries no timeline, seriousness or reminders entries at all — the
claimed metadata defaults are absent on this path. -/
theorem error_plan_lacks_default_metadata_cex :
    ((GoalFlow.generatePlanFromContext pick0 sample0
        (Except.error ("planner unavailable".toList)) ⟨none, none, none, none⟩
        ("GPT-3.5 Turbo".toList)).metadata.bind GoalFlow.Metadata.timeline = none) ∧
    ((GoalFlow.generatePlanFromContext pick0 sample0
        (Except.error ("planner unavailable".toList)) ⟨none, none, none, none⟩
        ("GPT-3.5 Turbo".toList)).metadata.bind GoalFlow.Metadata.seriousness = none) ∧
    ((GoalFlow.generatePlanFromContext pick0 sample0
        (Except.error ("planner unavailable".toList)) ⟨none, none, none, none⟩
        ("GPT-3.5 Turbo".toList)).metadata.bind GoalFlow.Metadata.reminders = none) := by
  decide

/-- C8 (amended): for every goal context and every planner outcome the
gateway returns a plan (no exception escapes).  When the planner raises,
the result is the error plan: non-empty weeks and the error message in
the metadata (but no timeline/seriousness/reminders defaults).  When the
planner returns output, the metadata carries the defaulted timeline,
seriousness and reminders values; unparseable output yields the
non-empty fallback weeks, and parsed output keeps exactly its own number
of weeks. -/
theorem gateway_total_and_defaulted (pick : List Str → Str)
    (sample : List GoalFlow.Resource → List GoalFlow.Resource)
    (ctx : GoalFlow.Ctx) (model : Str) :
    (∀ e : Str,
      GoalFlow.generatePlanFromContext pick sample (Except.error e) ctx model =
        GoalFlow.createErrorPlan ctx e ∧
      (GoalFlow.generatePlanFromContext pick sample (Except.error e) ctx model).weeks ≠ [] ∧
      (GoalFlow.generatePlanFromContext pick sample (Except.error e) ctx
          model).metadata.bind GoalFlow.Metadata.error = some e) ∧
    (∀ parsed : Option (List GoalFlow.Week),
      (GoalFlow.generatePlanFromContext pick sample (Except.ok parsed) ctx
          model).metadata.bind GoalFlow.Metadata.timeline =
        some (ctx.timeline.getD ("medium_term".toList)) ∧
      (GoalFlow.generatePlanFromContext pick sample (Except.ok parsed) ctx
          model).metadata.bind GoalFlow.Metadata.seriousness =
        some (ctx.seriousness.getD ("medium".toList)) ∧
      (GoalFlow.generatePlanFromContext pick sample (Except.ok parsed) ctx
          model).metadata.bind GoalFlow.Metadata.reminders =
        some (ctx.reminders.getD ("weekly".toList)) ∧
      (parsed = none →
        (GoalFlow.generatePlanFromContext pick sample (Except.ok parsed) ctx
            model).weeks ≠ []) ∧
      (∀ ws, parsed = some ws →
        (GoalFlow.generatePlanFromContext pick sample (Except.ok parsed) ctx
            model).weeks.length = ws.length)) := by
  constructor
  · intro e
    refine ⟨rfl, ?_, rfl⟩
    simp [GoalFlow.generatePlanFromContext, GoalFlow.createErrorPlan]
  · intro parsed
    refine ⟨rfl, rfl, rfl, ?_, ?_⟩
    · intro hp
      subst hp
      apply List.ne_nil_of_length_pos
      show 0 < (GoalFlow.generatePlanFromContext pick sample (Except.ok none) ctx
          model).weeks.length
      unfold GoalFlow.generatePlanFromContext
      dsimp only
      rw [enrich_weeks_length, schedule_weeks_length]
      exact createFallbackPlan_length_pos ctx
    · intro ws hws
      subst hws
      unfold GoalFlow.generatePlanFromContext
      dsimp only
      rw [enrich_weeks_length, schedule_weeks_length]

/-- C8 witness: the empty context with a planner returning unparseable
output yields non-empty weeks and the defaulted timeline metadata. -/
theorem gateway_total_and_defaulted_witness :
    (GoalFlow.generatePlanFromContext pick0 sample0 (Except.ok none)
        ⟨none, none, none, none⟩ ("GPT-3.5 Turbo".toList)).weeks ≠ [] ∧
    (GoalFlow.generatePlanFromContext pick0 sample0 (Except.ok none)
        ⟨none, none, none, none⟩ ("GPT-3.5 Turbo".toList)).metadata.bind
        GoalFlow.Metadata.timeline = some ("medium_term".toList) := by
  have h := (gateway_total_and_defaulted pick0 sample0 ⟨none, none, none, none⟩
      ("GPT-3.5 Turbo".toList)).2 none
  exact ⟨h.2.2.2.1 rfl, h.1⟩

end Leo
